import Mathlib

/-!
Verification of the `distributed-pytorch` tutorial notebook
(`ddp_apex_tutorial.ipynb`).

The repository is a single notebook whose code cells configure distributed
mixed-precision training.  We embed the pieces of those cells that carry
checkable content:

* the learning-rate schedule `adjust_learning_rate` (the one function the
  notebook defines), with Python floats modelled as exact rationals `ℚ`;
* the mixed-precision training step as an event trace;
* the rank-guarded logging and checkpointing blocks as effect-producing
  functions;
* the data-loading configuration (samplers and shuffle flags);
* a syntactic model of every code cell, used to classify each statement as a
  library invocation or as locally implemented logic.
-/

namespace DistributedPytorch

/-! ## Learning-rate schedule

Source cell:

```
def adjust_learning_rate(optimizer, epoch, step, len_epoch):
    factor = epoch // 30
    if epoch >= 80:
        factor = factor + 1
    lr = args.lr*(0.1**factor)
    if epoch < 5:
        lr = lr*float(1 + step + epoch*len_epoch)/(5.*len_epoch)
    for param_group in optimizer.param_groups:
        param_group[lr] = lr
    return lr
```

Python floats are modelled by exact rationals; `epoch // 30` is natural
division. -/

/-- One entry of `optimizer.param_groups`: the notebook only ever touches its
learning rate. -/
structure ParamGroup where
  lr : ℚ
  deriving DecidableEq

/-- The optimizer, as far as `adjust_learning_rate` observes it: a list of
parameter groups. -/
structure SGDOptimizer where
  param_groups : List ParamGroup
  deriving DecidableEq

/-- Embedding of `adjust_learning_rate`.  `args_lr` is the global `args.lr`
read by the function; the result is the mutated optimizer together with the
returned learning rate. -/
def adjust_learning_rate (args_lr : ℚ) (optimizer : SGDOptimizer)
    (epoch step len_epoch : ℕ) : SGDOptimizer × ℚ :=
  let factor : ℕ := epoch / 30
  let factor : ℕ := if 80 ≤ epoch then factor + 1 else factor
  let lr : ℚ := args_lr * (1 / 10 : ℚ) ^ factor
  let lr : ℚ :=
    if epoch < 5 then
      lr * (1 + (step : ℚ) + (epoch : ℚ) * (len_epoch : ℚ)) / (5 * (len_epoch : ℚ))
    else lr
  (⟨optimizer.param_groups.map fun g => { g with lr := lr }⟩, lr)

/-! ## The mixed-precision training step as an event trace

Source cell:

```
output = model(input)
loss = criterion(output, target)
with amp.scale_loss(loss, optimizer) as scaled_loss:
    scaled_loss.backward()
optimizer.step()
```

Entering the `amp.scale_loss` context multiplies the loss by the loss scale;
leaving it unscales the accumulated gradients.  The cell is straight-line
code, so we embed it as the list of its events in program order. -/

/-- The observable events of one mixed-precision training step. -/
inductive TrainEvent where
  /-- `output = model(input)` -/
  | forwardPass
  /-- `loss = criterion(output, target)` -/
  | lossCompute
  /-- entering `amp.scale_loss(loss, optimizer)`: the loss is multiplied by
  the scale factor, yielding `scaled_loss` -/
  | scaleLoss
  /-- `scaled_loss.backward()` -/
  | backwardPass
  /-- leaving the `amp.scale_loss` context: the gradients are unscaled -/
  | unscaleGrads
  /-- `optimizer.step()` -/
  | optimizerStep
  deriving DecidableEq

/-- The training-step cell, linearized in program order. -/
def ampTrainStepTrace : List TrainEvent :=
  [.forwardPass, .lossCompute, .scaleLoss, .backwardPass, .unscaleGrads,
    .optimizerStep]

/-! ## Rank-guarded logging and checkpointing

Source cells:

```
if torch.distributed.get_rank() == 0:
    writer.add_scalar(Loss/train, train_losses, epoch + 1)
    writer.add_scalar(Loss/val, val_losses, epoch + 1)
    writer.add_scalar(Top1/train, train_top1, epoch + 1)
    writer.add_scalar(Top1/val, val_top1, epoch + 1)
```

```
if torch.distributed.get_rank() == 0:
    is_best = val_top1 > best_prec1
    best_prec1 = max(val_top1, best_prec1)
    save_checkpoint(dict(epoch = epoch + 1, arch = args.arch,
                         state_dict = model.state_dict(),
                         best_prec1 = best_prec1,
                         optimizer = optimizer.state_dict()),
                    is_best, writer.log_dir)
```

Metric values are rationals; the model and optimizer state dicts are treated
as uninterpreted strings carried into the checkpoint. -/

/-- The dictionary handed to `save_checkpoint`. -/
structure Checkpoint where
  epoch : ℕ
  arch : String
  state_dict : String
  best_prec1 : ℚ
  optimizer_state : String
  deriving DecidableEq

/-- The side effects the two guarded blocks can perform. -/
inductive Effect where
  /-- `writer.add_scalar(tag, value, tick)` -/
  | addScalar (tag : String) (value : ℚ) (tick : ℕ)
  /-- `save_checkpoint(chk, is_best, log_dir)` -/
  | save (chk : Checkpoint) (is_best : Bool) (log_dir : String)
  deriving DecidableEq

/-- The Tensorboard-logging cell: the effects it performs as a function of
the global rank of the caller. -/
def loggingBlock (rank : ℕ) (train_losses val_losses train_top1 val_top1 : ℚ)
    (epoch : ℕ) : List Effect :=
  if rank = 0 then
    [.addScalar "Loss/train" train_losses (epoch + 1),
     .addScalar "Loss/val" val_losses (epoch + 1),
     .addScalar "Top1/train" train_top1 (epoch + 1),
     .addScalar "Top1/val" val_top1 (epoch + 1)]
  else []

/-- The checkpointing cell: returns the new `best_prec1` together with the
effects performed, as a function of the global rank of the caller. -/
def checkpointBlock (rank : ℕ) (val_top1 best_prec1 : ℚ) (epoch : ℕ)
    (arch state_dict optimizer_state log_dir : String) : ℚ × List Effect :=
  if rank = 0 then
    let is_best : Bool := decide (best_prec1 < val_top1)
    let best : ℚ := max val_top1 best_prec1
    (best,
      [.save ⟨epoch + 1, arch, state_dict, best, optimizer_state⟩ is_best
        log_dir])
  else (best_prec1, [])

/-! ## Data loading configuration

Source cells:

```
train_sampler = torch.utils.data.distributed.DistributedSampler(train_dataset)
val_sampler = torch.utils.data.distributed.DistributedSampler(val_dataset)

train_loader = torch.utils.data.DataLoader(
    train_dataset, batch_size = args.batch_size,
    shuffle = (train_sampler is None),
    num_workers = args.workers, sampler = train_sampler)

val_loader = torch.utils.data.DataLoader(
    val_dataset, batch_size = args.batch_size, shuffle = False,
    num_workers = args.workers, sampler = val_sampler)
```
-/

/-- A sampler value as constructed by the notebook. -/
inductive Sampler where
  | distributedSampler (dataset : String)
  deriving DecidableEq

/-- The arguments the notebook passes to `torch.utils.data.DataLoader`. -/
structure DataLoaderCfg where
  dataset : String
  batch_size : ℕ
  shuffle : Bool
  num_workers : ℕ
  sampler : Option Sampler
  deriving DecidableEq

/-- `train_sampler`: a `DistributedSampler` over the training dataset. -/
def train_sampler : Option Sampler := some (.distributedSampler "train_dataset")

/-- `val_sampler`: a `DistributedSampler` over the validation dataset. -/
def val_sampler : Option Sampler := some (.distributedSampler "val_dataset")

/-- `train_loader`, parametrized by `args.batch_size` and `args.workers`.
The `shuffle` argument is literally `train_sampler is None`. -/
def train_loader (batch_size workers : ℕ) : DataLoaderCfg :=
  { dataset := "train_dataset"
    batch_size := batch_size
    shuffle := decide (train_sampler = none)
    num_workers := workers
    sampler := train_sampler }

/-- `val_loader`, parametrized by `args.batch_size` and `args.workers`. -/
def val_loader (batch_size workers : ℕ) : DataLoaderCfg :=
  { dataset := "val_dataset"
    batch_size := batch_size
    shuffle := false
    num_workers := workers
    sampler := val_sampler }

/-! ## A syntactic model of every code cell

To settle whether "every code cell only invokes library-provided
functionality" and "every function defined in the source delegates to the
external framework", we transcribe each code cell of the notebook into a
small statement syntax and classify each right-hand side by what evaluates
it: a call into the external framework, a Python builtin, arithmetic done by
code of the notebook itself, a plain name read, or a comparison. -/

/-- A Python expression of the notebook, classified by what evaluates it. -/
inductive PyExpr where
  /-- a call into the external framework or its ecosystem (torch,
  torchvision, apex/amp, nn, the Tensorboard writer, the launch module) or
  into the checkpoint-saving helper of the companion training script,
  `save_checkpoint`; arguments are kept as literal text -/
  | lib (callee : String) (args : List String)
  /-- a Python builtin call, e.g. `max` -/
  | builtinCall (callee : String) (args : List String)
  /-- an arithmetic expression evaluated by code of the notebook itself -/
  | arith (text : String)
  /-- a bare name or attribute read -/
  | nameRead (text : String)
  /-- a comparison -/
  | cmp (lhs op rhs : String)

/-- A Python statement of the notebook. -/
inductive PyStmt where
  /-- `target = rhs` (also tuple targets, e.g. `model, optimizer = ...`) -/
  | assign (target : String) (rhs : PyExpr)
  /-- a bare expression statement -/
  | exprStmt (e : PyExpr)
  /-- `with ctx as binder:` followed by a body -/
  | withStmt (ctx : PyExpr) (binder : String) (body : List PyStmt)
  /-- `if cond:` followed by a body -/
  | ifStmt (cond : PyExpr) (body : List PyStmt)
  /-- `for var in iter:` followed by a body -/
  | forStmt (var : String) (iter : PyExpr) (body : List PyStmt)
  /-- `def fname(params):` followed by a body -/
  | funcDef (fname : String) (params : List String) (body : List PyStmt)
  /-- `return e` -/
  | ret (e : PyExpr)

/-- Does this expression invoke library-provided functionality? -/
def PyExpr.isLib : PyExpr → Bool
  | .lib _ _ => true
  | _ => false

mutual

/-- A statement delegates to the external framework when every value it
computes comes from a library call (guard conditions are rank/epoch
coordination and are not counted against a block whose body delegates). -/
def PyStmt.delegates : PyStmt → Bool
  | .assign _ rhs => rhs.isLib
  | .exprStmt e => e.isLib
  | .withStmt ctx _ body => ctx.isLib && delegatesAll body
  | .ifStmt _ body => delegatesAll body
  | .forStmt _ _ body => delegatesAll body
  | .funcDef _ _ body => delegatesAll body
  | .ret e => e.isLib

/-- All statements of a block delegate. -/
def delegatesAll : List PyStmt → Bool
  | [] => true
  | s :: rest => s.delegates && delegatesAll rest

end

mutual

/-- A statement together with every statement nested inside it. -/
def PyStmt.withNested : PyStmt → List PyStmt
  | .withStmt ctx b body => .withStmt ctx b body :: nestedAll body
  | .ifStmt c body => .ifStmt c body :: nestedAll body
  | .forStmt v i body => .forStmt v i body :: nestedAll body
  | .funcDef n p body => .funcDef n p body :: nestedAll body
  | s => [s]

/-- All statements of a block, nested ones included. -/
def nestedAll : List PyStmt → List PyStmt
  | [] => []
  | s :: rest => s.withNested ++ nestedAll rest

end

mutual

/-- The functions a statement defines (name and body). -/
def PyStmt.funcDefs : PyStmt → List (String × List PyStmt)
  | .funcDef n _ body => (n, body) :: funcDefsAll body
  | .withStmt _ _ body => funcDefsAll body
  | .ifStmt _ body => funcDefsAll body
  | .forStmt _ _ body => funcDefsAll body
  | _ => []

/-- The functions defined anywhere in a block. -/
def funcDefsAll : List PyStmt → List (String × List PyStmt)
  | [] => []
  | s :: rest => s.funcDefs ++ funcDefsAll rest

end

/-- Process-group setup cell. -/
def cellSetup : List PyStmt :=
  [.assign "args.gpu" (.nameRead "args.local_rank"),
   .exprStmt (.lib "torch.cuda.set_device" ["args.gpu"]),
   .exprStmt (.lib "torch.distributed.init_process_group"
     ["backend=nccl", "init_method=env://"]),
   .assign "args.world_size" (.lib "torch.distributed.get_world_size" [])]

/-- Model / optimizer cell, including the learning-rate scaling line
`args.lr = args.lr * float(args.batch_size*args.world_size)/256.`. -/
def cellModelOpt : List PyStmt :=
  [.assign "model" (.lib "models.resnet50" ["pretrained=True"]),
   .exprStmt (.lib "model.cuda" []),
   .assign "args.lr" (.arith "args.lr * float(args.batch_size*args.world_size)/256."),
   .assign "optimizer" (.lib "torch.optim.SGD"
     ["model.parameters()", "args.lr", "momentum=args.momentum",
      "weight_decay=args.weight_decay"])]

/-- Amp setup cell (`model, optimizer = amp` dot `initialize(...)`). -/
def cellAmp : List PyStmt :=
  [.assign "model, optimizer" (.lib "amp.initialize"
     ["model", "optimizer", "opt_level=args.opt_level",
      "keep_batchnorm_fp32=args.keep_batchnorm_fp32"])]

/-- DDP wrapping and loss-function cell. -/
def cellDDP : List PyStmt :=
  [.assign "model" (.lib "DDP" ["model", "delay_allreduce=True"]),
   .assign "criterion" (.lib "nn.CrossEntropyLoss().cuda" [])]

/-- Dataset and sampler cell. -/
def cellData : List PyStmt :=
  [.assign "train_dataset" (.lib "datasets.ImageFolder"
     ["traindir", "transforms.Compose(RandomResizedCrop, RandomHorizontalFlip)"]),
   .assign "val_dataset" (.lib "datasets.ImageFolder"
     ["valdir", "transforms.Compose(Resize, CenterCrop)"]),
   .assign "train_sampler" (.lib "torch.utils.data.distributed.DistributedSampler"
     ["train_dataset"]),
   .assign "val_sampler" (.lib "torch.utils.data.distributed.DistributedSampler"
     ["val_dataset"])]

/-- Data-loader cell. -/
def cellLoaders : List PyStmt :=
  [.assign "train_loader" (.lib "torch.utils.data.DataLoader"
     ["train_dataset", "batch_size=args.batch_size",
      "shuffle=(train_sampler is None)", "num_workers=args.workers",
      "sampler=train_sampler"]),
   .assign "val_loader" (.lib "torch.utils.data.DataLoader"
     ["val_dataset", "batch_size=args.batch_size", "shuffle=False",
      "num_workers=args.workers", "sampler=val_sampler"])]

/-- Body of `adjust_learning_rate`, the one function the notebook defines. -/
def adjustLRBody : List PyStmt :=
  [.assign "factor" (.arith "epoch // 30"),
   .ifStmt (.cmp "epoch" ">=" "80")
     [.assign "factor" (.arith "factor + 1")],
   .assign "lr" (.arith "args.lr*(0.1**factor)"),
   .ifStmt (.cmp "epoch" "<" "5")
     [.assign "lr" (.arith "lr*float(1 + step + epoch*len_epoch)/(5.*len_epoch)")],
   .forStmt "param_group" (.nameRead "optimizer.param_groups")
     [.assign "param_group[lr]" (.nameRead "lr")],
   .ret (.nameRead "lr")]

/-- Learning-rate-schedule cell. -/
def cellAdjustLR : List PyStmt :=
  [.funcDef "adjust_learning_rate" ["optimizer", "epoch", "step", "len_epoch"]
     adjustLRBody]

/-- Plain (pre-amp) training-step cell, shown for contrast in the notebook. -/
def cellPlainStep : List PyStmt :=
  [.assign "output" (.lib "model" ["input"]),
   .assign "loss" (.lib "criterion" ["output", "target"]),
   .exprStmt (.lib "loss.backward" []),
   .exprStmt (.lib "optimizer.step" [])]

/-- Mixed-precision training-step cell. -/
def cellAmpStep : List PyStmt :=
  [.assign "output" (.lib "model" ["input"]),
   .assign "loss" (.lib "criterion" ["output", "target"]),
   .withStmt (.lib "amp.scale_loss" ["loss", "optimizer"]) "scaled_loss"
     [.exprStmt (.lib "scaled_loss.backward" [])],
   .exprStmt (.lib "optimizer.step" [])]

/-- Rank-guarded Tensorboard-logging cell. -/
def cellLogging : List PyStmt :=
  [.ifStmt (.cmp "torch.distributed.get_rank()" "==" "0")
     [.exprStmt (.lib "writer.add_scalar" ["Loss/train", "train_losses", "epoch + 1"]),
      .exprStmt (.lib "writer.add_scalar" ["Loss/val", "val_losses", "epoch + 1"]),
      .exprStmt (.lib "writer.add_scalar" ["Top1/train", "train_top1", "epoch + 1"]),
      .exprStmt (.lib "writer.add_scalar" ["Top1/val", "val_top1", "epoch + 1"])]]

/-- Rank-guarded checkpointing cell. -/
def cellCheckpoint : List PyStmt :=
  [.ifStmt (.cmp "torch.distributed.get_rank()" "==" "0")
     [.assign "is_best" (.cmp "val_top1" ">" "best_prec1"),
      .assign "best_prec1" (.builtinCall "max" ["val_top1", "best_prec1"]),
      .exprStmt (.lib "save_checkpoint"
        ["dict(epoch, arch, state_dict, best_prec1, optimizer)",
         "is_best", "writer.log_dir"])]]

/-- The two launch-command cells (node 0 and node 1), which invoke the
launch module `torch.distributed.launch` of the framework on the training script. -/
def cellLaunch : List PyStmt :=
  [.exprStmt (.lib "torch.distributed.launch"
     ["--nproc_per_node=4", "--nnodes=2", "--node_rank=0",
      "--master_addr=192.168.100.11", "--master_port=8888",
      "imagenet_ddp_apex.py"]),
   .exprStmt (.lib "torch.distributed.launch"
     ["--nproc_per_node=4", "--nnodes=2", "--node_rank=1",
      "--master_addr=192.168.100.11", "--master_port=8888",
      "imagenet_ddp_apex.py"])]

/-- Every statement of every code cell of the notebook, in cell order. -/
def topStmts : List PyStmt :=
  cellSetup ++ cellModelOpt ++ cellAmp ++ cellDDP ++ cellData ++
    cellLoaders ++ cellAdjustLR ++ cellPlainStep ++ cellAmpStep ++
    cellLogging ++ cellCheckpoint ++ cellLaunch

/-- All statements, nested ones included. -/
def allStmts : List PyStmt := nestedAll topStmts

/-- The statements that do not delegate to library functionality. -/
def nonDelegatingStmts : List PyStmt :=
  allStmts.filter fun s => ! s.delegates

end DistributedPytorch

namespace DistributedPytorch

/-! ## Theorems -/

/-- For `epoch < 5` the schedule is the warmup ramp:
`args.lr * (1 + step + epoch*len_epoch) / (5*len_epoch)`
(the decay factor is `0.1 ^ 0 = 1` there). -/
theorem warmup_value (a : ℚ) (opt : SGDOptimizer) (e s L : ℕ) (h : e < 5) :
    (adjust_learning_rate a opt e s L).2
      = a * (1 + (s : ℚ) + (e : ℚ) * (L : ℚ)) / (5 * (L : ℚ)) := by
  have h80 : ¬ 80 ≤ e := by omega
  have h30 : e / 30 = 0 := Nat.div_eq_of_lt (by omega)
  simp [adjust_learning_rate, if_pos h, if_neg h80, h30]

/-- C4: `adjust_learning_rate` writes the value it returns into the `lr`
entry of every param group, and that value is
`args.lr * 0.1^(epoch/30 + (1 if epoch ≥ 80 else 0))` outside warmup
(`epoch ≥ 5`), and `args.lr * 0.1^(epoch/30) * (1 + step + epoch*len_epoch)
/ (5*len_epoch)` during warmup (`epoch < 5`). -/
theorem C4_adjust_learning_rate_spec (a : ℚ) (opt : SGDOptimizer)
    (e s L : ℕ) (hL : 0 < L) :
    (∀ g ∈ (adjust_learning_rate a opt e s L).1.param_groups,
      g.lr = (adjust_learning_rate a opt e s L).2) ∧
    (5 ≤ e →
      (adjust_learning_rate a opt e s L).2
        = a * (1 / 10 : ℚ) ^ (e / 30 + if 80 ≤ e then 1 else 0)) ∧
    (e < 5 →
      (adjust_learning_rate a opt e s L).2
        = a * (1 / 10 : ℚ) ^ (e / 30)
            * (1 + (s : ℚ) + (e : ℚ) * (L : ℚ)) / (5 * (L : ℚ))) := by
  refine ⟨?_, ?_, ?_⟩
  · intro g hg
    simp only [adjust_learning_rate, List.mem_map] at hg
    obtain ⟨g0, -, rfl⟩ := hg
    rfl
  · intro h5
    have h5' : ¬ e < 5 := by omega
    by_cases h80 : 80 ≤ e
    · simp [adjust_learning_rate, if_neg h5', if_pos h80]
    · simp [adjust_learning_rate, if_neg h5', if_neg h80]
  · intro h5
    have h80 : ¬ 80 ≤ e := by omega
    have h30 : e / 30 = 0 := Nat.div_eq_of_lt (by omega)
    simp [adjust_learning_rate, if_pos h5, if_neg h80, h30]

/-- Witness for C4 at `args.lr = 1`, one param group, `epoch = 90`,
`step = 3`, `len_epoch = 10`. -/
theorem C4_adjust_learning_rate_spec_witness :
    (0 < 10) ∧
    ((∀ g ∈ (adjust_learning_rate 1 ⟨[⟨0⟩]⟩ 90 3 10).1.param_groups,
      g.lr = (adjust_learning_rate 1 ⟨[⟨0⟩]⟩ 90 3 10).2) ∧
    (5 ≤ 90 →
      (adjust_learning_rate 1 ⟨[⟨0⟩]⟩ 90 3 10).2
        = 1 * (1 / 10 : ℚ) ^ (90 / 30 + if 80 ≤ 90 then 1 else 0)) ∧
    (90 < 5 →
      (adjust_learning_rate 1 ⟨[⟨0⟩]⟩ 90 3 10).2
        = 1 * (1 / 10 : ℚ) ^ (90 / 30)
            * (1 + ((3 : ℕ) : ℚ) + ((90 : ℕ) : ℚ) * ((10 : ℕ) : ℚ))
            / (5 * ((10 : ℕ) : ℚ)))) :=
  ⟨by norm_num, C4_adjust_learning_rate_spec 1 ⟨[⟨0⟩]⟩ 90 3 10 (by norm_num)⟩

/-- C8: during warmup (`epoch < 5`), for a fixed `len_epoch > 0` and
`args.lr > 0` the returned rate is strictly increasing in the global step
index `epoch*len_epoch + step`, and at the final warmup step
(`epoch = 4`, `step = len_epoch - 1`) it equals `args.lr` exactly. -/
theorem C8_warmup_ramp (a : ℚ) (opt opt2 : SGDOptimizer)
    (L e1 s1 e2 s2 : ℕ) (ha : 0 < a) (hL : 0 < L)
    (h1 : e1 < 5) (h2 : e2 < 5) (hlt : e1 * L + s1 < e2 * L + s2) :
    (adjust_learning_rate a opt e1 s1 L).2
      < (adjust_learning_rate a opt2 e2 s2 L).2 ∧
    (adjust_learning_rate a opt 4 (L - 1) L).2 = a := by
  have hLq : (0 : ℚ) < (L : ℚ) := by exact_mod_cast hL
  constructor
  · rw [warmup_value a opt e1 s1 L h1, warmup_value a opt2 e2 s2 L h2]
    have h5L : (0 : ℚ) < 5 * (L : ℚ) := by linarith
    rw [div_lt_div_iff_of_pos_right h5L]
    have hnum : (1 + (s1 : ℚ) + (e1 : ℚ) * (L : ℚ))
        < 1 + (s2 : ℚ) + (e2 : ℚ) * (L : ℚ) := by
      have hq : ((e1 * L + s1 : ℕ) : ℚ) < ((e2 * L + s2 : ℕ) : ℚ) := by
        exact_mod_cast hlt
      push_cast at hq
      linarith
    exact (mul_lt_mul_left ha).2 hnum
  · rw [warmup_value a opt 4 (L - 1) L (by omega)]
    have hL1 : (1 : ℕ) ≤ L := hL
    have hcast : ((L - 1 : ℕ) : ℚ) = (L : ℚ) - 1 := by
      push_cast [hL1]
      ring
    rw [hcast]
    have hnum : (1 + ((L : ℚ) - 1) + ((4 : ℕ) : ℚ) * (L : ℚ)) = 5 * (L : ℚ) := by
      push_cast
      ring
    rw [hnum, mul_div_assoc, div_self (by positivity), mul_one]

/-- Witness for C8 at `args.lr = 2`, `len_epoch = 10`, comparing warmup
point `(epoch, step) = (0, 3)` against `(4, 9)`. -/
theorem C8_warmup_ramp_witness :
    (0 : ℚ) < 2 ∧ (0 < 10) ∧
    ((adjust_learning_rate 2 ⟨[⟨1⟩]⟩ 0 3 10).2
      < (adjust_learning_rate 2 ⟨[⟨1⟩]⟩ 4 9 10).2 ∧
    (adjust_learning_rate 2 ⟨[⟨1⟩]⟩ 4 (10 - 1) 10).2 = 2) :=
  ⟨by norm_num, by norm_num,
    C8_warmup_ramp 2 ⟨[⟨1⟩]⟩ ⟨[⟨1⟩]⟩ 10 0 3 4 9 (by norm_num) (by norm_num)
      (by norm_num) (by norm_num) (by norm_num)⟩

/-- C2: in the mixed-precision training step each event occurs exactly once,
and the order is scale the loss, then backward, then unscale, then
`optimizer.step()`. -/
theorem C2_scale_backward_unscale_step_order :
    ampTrainStepTrace.indexOf .scaleLoss
        < ampTrainStepTrace.indexOf .backwardPass ∧
    ampTrainStepTrace.indexOf .backwardPass
        < ampTrainStepTrace.indexOf .unscaleGrads ∧
    ampTrainStepTrace.indexOf .unscaleGrads
        < ampTrainStepTrace.indexOf .optimizerStep ∧
    ampTrainStepTrace.count .scaleLoss = 1 ∧
    ampTrainStepTrace.count .backwardPass = 1 ∧
    ampTrainStepTrace.count .unscaleGrads = 1 ∧
    ampTrainStepTrace.count .optimizerStep = 1 := by
  decide

/-- C3: a process whose global rank is not 0 performs no effect in the
logging and checkpointing blocks, and leaves `best_prec1` unchanged. -/
theorem C3_nonzero_rank_no_effects (rank : ℕ) (hr : rank ≠ 0)
    (train_losses val_losses train_top1 val_top1 best_prec1 : ℚ) (epoch : ℕ)
    (arch state_dict optimizer_state log_dir : String) :
    loggingBlock rank train_losses val_losses train_top1 val_top1 epoch
        = [] ∧
    checkpointBlock rank val_top1 best_prec1 epoch arch state_dict
        optimizer_state log_dir = (best_prec1, []) := by
  constructor
  · simp [loggingBlock, if_neg hr]
  · simp [checkpointBlock, if_neg hr]

/-- Witness for C3 at rank 1. -/
theorem C3_nonzero_rank_no_effects_witness :
    (1 : ℕ) ≠ 0 ∧
    (loggingBlock 1 0 0 0 0 0 = [] ∧
     checkpointBlock 1 0 0 0 "resnet50" "sd" "os" "runs" = (0, [])) :=
  ⟨by decide,
    C3_nonzero_rank_no_effects 1 (by decide) 0 0 0 0 0 0 "resnet50" "sd" "os"
      "runs"⟩

/-- C9: on rank 0, the new `best_prec1` is `max(val_top1, best_prec1)` (so it
never decreases), `is_best` is true exactly when `val_top1` strictly exceeds
the previous best, and the saved checkpoint records the updated best and
`epoch + 1`. -/
theorem C9_best_prec1_monotone (val_top1 best_prec1 : ℚ) (epoch : ℕ)
    (arch state_dict optimizer_state log_dir : String) :
    (checkpointBlock 0 val_top1 best_prec1 epoch arch state_dict
        optimizer_state log_dir).1 = max val_top1 best_prec1 ∧
    best_prec1 ≤ (checkpointBlock 0 val_top1 best_prec1 epoch arch state_dict
        optimizer_state log_dir).1 ∧
    (checkpointBlock 0 val_top1 best_prec1 epoch arch state_dict
        optimizer_state log_dir).2
      = [.save ⟨epoch + 1, arch, state_dict, max val_top1 best_prec1,
            optimizer_state⟩ (decide (best_prec1 < val_top1)) log_dir] ∧
    (decide (best_prec1 < val_top1) = true ↔ best_prec1 < val_top1) := by
  refine ⟨rfl, ?_, rfl, by simp⟩
  simp only [checkpointBlock, if_pos rfl]
  exact le_max_right val_top1 best_prec1

/-- C7: both loaders carry a `DistributedSampler`; the `shuffle` of the train loader is `train_sampler is None`, which evaluates to `false` because the
sampler is set, and the `shuffle` of the validation loader is literally `false`. -/
theorem C7_sampler_and_shuffle (batch_size workers : ℕ) :
    (train_loader batch_size workers).sampler
        = some (.distributedSampler "train_dataset") ∧
    (val_loader batch_size workers).sampler
        = some (.distributedSampler "val_dataset") ∧
    (train_loader batch_size workers).shuffle = decide (train_sampler = none) ∧
    (train_loader batch_size workers).shuffle = false ∧
    (val_loader batch_size workers).shuffle = false :=
  ⟨rfl, rfl, rfl, rfl, rfl⟩

/-- C1 counterexample: it is not the case that every function defined in the
source delegates to the external framework, nor that every statement of every
code cell invokes library-provided functionality: the notebook defines
`adjust_learning_rate`, whose body computes the learning rate by local
arithmetic. -/
theorem C1_counterexample :
    ((funcDefsAll topStmts).all fun f => delegatesAll f.2) = false ∧
    (allStmts.all PyStmt.delegates) = false := by
  constructor <;> rfl

/-- C1 amended: the notebook defines exactly one function,
`adjust_learning_rate`, and its body does not delegate: it implements an
original step-decay learning-rate schedule with linear warmup by local
arithmetic.  The only statements that do not invoke library-provided
functionality are that schedule (with the initial learning-rate scaling
line) and a few lines of scalar bookkeeping: aliasing the local rank to
`args.gpu`, and computing `is_best` / `best_prec1` in the checkpoint
block. -/
theorem C1_amended_delegation :
    funcDefsAll topStmts = [("adjust_learning_rate", adjustLRBody)] ∧
    delegatesAll adjustLRBody = false ∧
    nonDelegatingStmts =
      [.assign "args.gpu" (.nameRead "args.local_rank"),
       .assign "args.lr" (.arith "args.lr * float(args.batch_size*args.world_size)/256."),
       .funcDef "adjust_learning_rate" ["optimizer", "epoch", "step", "len_epoch"]
         adjustLRBody,
       .assign "factor" (.arith "epoch // 30"),
       .ifStmt (.cmp "epoch" ">=" "80")
         [.assign "factor" (.arith "factor + 1")],
       .assign "factor" (.arith "factor + 1"),
       .assign "lr" (.arith "args.lr*(0.1**factor)"),
       .ifStmt (.cmp "epoch" "<" "5")
         [.assign "lr" (.arith "lr*float(1 + step + epoch*len_epoch)/(5.*len_epoch)")],
       .assign "lr" (.arith "lr*float(1 + step + epoch*len_epoch)/(5.*len_epoch)"),
       .forStmt "param_group" (.nameRead "optimizer.param_groups")
         [.assign "param_group[lr]" (.nameRead "lr")],
       .assign "param_group[lr]" (.nameRead "lr"),
       .ret (.nameRead "lr"),
       .ifStmt (.cmp "torch.distributed.get_rank()" "==" "0")
         [.assign "is_best" (.cmp "val_top1" ">" "best_prec1"),
          .assign "best_prec1" (.builtinCall "max" ["val_top1", "best_prec1"]),
          .exprStmt (.lib "save_checkpoint"
            ["dict(epoch, arch, state_dict, best_prec1, optimizer)",
             "is_best", "writer.log_dir"])],
       .assign "is_best" (.cmp "val_top1" ">" "best_prec1"),
       .assign "best_prec1" (.builtinCall "max" ["val_top1", "best_prec1"])] := by
  refine ⟨rfl, rfl, rfl⟩

end DistributedPytorch
